import Mathlib

/-!
Verification of the ying audio-recognition pipeline against its
natural-language specification.

The development is a shallow embedding of the Python source under
src/app/.  Conventions used throughout:

* UTC timestamps are integer microseconds since the Unix epoch, matching
  CPython datetime's microsecond resolution; durations given in seconds
  are converted by a factor of 1000000.
* Python dicts (which preserve insertion order) are association lists
  `List (String × α)` with update-in-place/append-at-end semantics.
* Python floats that only ever hold small dyadic values (confidences,
  backoff seconds) are `Rat`, on which the involved arithmetic is exact.
* `None` is `Option.none`; a Python `str` field is a `String` (never
  `None`), which matters for `RecognitionResult.is_success`.
-/

/-- Embeds `app/recognizers/base.py::RecognitionResult`.  `raw_response`
(an opaque JSON blob used only for diagnostics) is kept as an opaque
optional string. -/
structure RecognitionResult where
  provider : String
  provider_track_id : String
  title : String
  artist : String
  recognized_at_utc : Int
  album : Option String := none
  isrc : Option String := none
  artwork_url : Option String := none
  confidence : Option Rat := none
  raw_response : Option String := none
  error_message : Option String := none
deriving DecidableEq, Repr

/-- Embeds `RecognitionResult.is_success`:
`self.error_message is None and self.provider_track_id is not None`.
`provider_track_id` is a Python `str` field, so the comparison against
`None` is vacuously true; the embedding records that second conjunct as
the literal `true`. -/
def RecognitionResult.is_success (r : RecognitionResult) : Bool :=
  r.error_message.isNone && true

/-- Embeds `RecognitionResult.is_no_match`:
`self.error_message is None and not self.provider_track_id`, where Python
string truthiness makes `not s` mean `s` is empty. -/
def RecognitionResult.is_no_match (r : RecognitionResult) : Bool :=
  r.error_message.isNone && r.provider_track_id.isEmpty

/-- Lookup in a Python dict modelled as an insertion-ordered association
list (first match wins; keys are unique in an actual dict). -/
def dictGet {α : Type} (d : List (String × α)) (k : String) : Option α :=
  match d with
  | [] => none
  | (k', v) :: rest => if k' = k then some v else dictGet rest k

/-- Insertion/update in a Python dict: an existing key is updated in
place, a new key is appended at the end. -/
def dictSet {α : Type} (d : List (String × α)) (k : String) (v : α) :
    List (String × α) :=
  match d with
  | [] => [(k, v)]
  | (k', v') :: rest =>
      if k' = k then (k, v) :: rest else (k', v') :: dictSet rest k v

/-- Deletion from a Python dict (`del d[k]`). -/
def dictDel {α : Type} (d : List (String × α)) (k : String) :
    List (String × α) :=
  match d with
  | [] => []
  | (k', v') :: rest => if k' = k then rest else (k', v') :: dictDel rest k

/-- Embeds `app/scheduler.py::TwoHitState`. -/
structure TwoHitState where
  track_id : String
  provider : String
  first_hit_time : Int
  confidence : Rat
deriving DecidableEq, Repr

/-- Embeds `TwoHitState.is_within_tolerance`: the difference between the
second hit time and `first_hit_time` must be at most
`tolerance_hops * hop_seconds` seconds (the source compares
`timedelta.total_seconds()` against the integer bound; at microsecond
granularity that comparison coincides with this exact integer one). -/
def TwoHitState.is_within_tolerance (state : TwoHitState)
    (second_hit_time : Int) (tolerance_hops hop_seconds : Nat) : Bool :=
  decide (second_hit_time - state.first_hit_time ≤
    ((tolerance_hops * hop_seconds * 1000000 : Nat) : Int))

/-- The per-stream pending maps of `TwoHitAggregator`:
`stream name ↦ track key ↦ TwoHitState`. -/
abbrev StreamHits := List (String × TwoHitState)

/-- The full `TwoHitAggregator.pending_hits` field. -/
abbrev PendingHits := List (String × StreamHits)

/-- Embeds `TwoHitAggregator.process_recognition`.  The aggregator's
configuration (`two_hit_hop_tolerance`, `hop_seconds`) and its mutable
`pending_hits` dict are explicit arguments; the function returns the
confirmed result (if any) together with the updated `pending_hits`. -/
def process_recognition (tolerance_hops hop_seconds : Nat)
    (pending_hits : PendingHits) (stream_name : String)
    (result : RecognitionResult) :
    Option RecognitionResult × PendingHits :=
  if !result.is_success then
    (none, pending_hits)
  else
    let track_key := result.provider ++ ":" ++ result.provider_track_id
    let pending_hits :=
      if (dictGet pending_hits stream_name).isNone then
        dictSet pending_hits stream_name []
      else pending_hits
    let stream_hits := (dictGet pending_hits stream_name).getD []
    match dictGet stream_hits track_key with
    | some first_hit =>
        if first_hit.is_within_tolerance result.recognized_at_utc
            tolerance_hops hop_seconds then
          (some result,
           dictSet pending_hits stream_name (dictDel stream_hits track_key))
        else
          (none,
           dictSet pending_hits stream_name
             (dictSet stream_hits track_key
               { track_id := result.provider_track_id
                 provider := result.provider
                 first_hit_time := result.recognized_at_utc
                 confidence := result.confidence.getD 0 }))
    | none =>
        (none,
         dictSet pending_hits stream_name
           (dictSet stream_hits track_key
             { track_id := result.provider_track_id
               provider := result.provider
               first_hit_time := result.recognized_at_utc
               confidence := result.confidence.getD 0 }))

/-- Embeds `TwoHitAggregator.cleanup_expired_hits`: every pending entry
strictly older than `(tolerance_hops + 1) * hop_seconds` seconds is
deleted (the source collects keys with age `> max_age_seconds` and
deletes them, i.e. it keeps exactly the entries with age `≤` the bound). -/
def cleanup_expired_hits (tolerance_hops hop_seconds : Nat)
    (pending_hits : PendingHits) (current_time : Int) : PendingHits :=
  let max_age_seconds := (tolerance_hops + 1) * hop_seconds
  pending_hits.map fun sh =>
    (sh.1, sh.2.filter fun kv =>
      decide (current_time - kv.2.first_hit_time ≤
        ((max_age_seconds * 1000000 : Nat) : Int)))

/-- Embeds the two-hit confirmation loop of
`app/worker.py::StreamWorker._process_window` (the `for result in
recognition_results` loop feeding `process_recognition` and collecting
the confirmed plays in order). -/
def process_results (tolerance_hops hop_seconds : Nat)
    (pending_hits : PendingHits) (stream_name : String)
    (results : List RecognitionResult) :
    List RecognitionResult × PendingHits :=
  results.foldl
    (fun acc r =>
      let step := process_recognition tolerance_hops hop_seconds acc.2
        stream_name r
      match step.1 with
      | some confirmed => (acc.1 ++ [confirmed], step.2)
      | none => (acc.1, step.2))
    ([], pending_hits)

/-- A no-match result: empty `provider_track_id`, no `error_message`
(timestamp 2024-01-01T12:00:00Z in microseconds). -/
def noMatchResult : RecognitionResult :=
  { provider := "shazam"
    provider_track_id := ""
    title := ""
    artist := ""
    recognized_at_utc := 1704110400000000 }

/-- An error result: populated `error_message`. -/
def errorResult : RecognitionResult :=
  { provider := "shazam"
    provider_track_id := ""
    title := ""
    artist := ""
    recognized_at_utc := 1704110400000000
    error_message := some "Recognition failed" }

/-- A pending first hit of track `T1` by provider `P` at
2024-01-01T12:00:00Z. -/
def firstHitState : TwoHitState :=
  { track_id := "T1"
    provider := "P"
    first_hit_time := 1704110400000000
    confidence := 1 }

/-- A second hit of the same `(provider, provider_track_id)` exactly
`tolerance_hops * hop_seconds = 120` seconds after `firstHitState`. -/
def secondHitAtBoundary : RecognitionResult :=
  { provider := "P"
    provider_track_id := "T1"
    title := "Song"
    artist := "Artist"
    recognized_at_utc := 1704110400000000 + 120000000 }

/-- A second hit of the same key one microsecond past the tolerance. -/
def secondHitLate : RecognitionResult :=
  { provider := "P"
    provider_track_id := "T1"
    title := "Song"
    artist := "Artist"
    recognized_at_utc := 1704110400000000 + 120000001 }

/-- A first hit of a different track `T2` by provider `P` one hour after
`firstHitState`. -/
def otherTrackMuchLater : RecognitionResult :=
  { provider := "P"
    provider_track_id := "T2"
    title := "Other"
    artist := "Artist"
    recognized_at_utc := 1704110400000000 + 3600000000 }

/-- Embeds `app/scheduler.py::WindowScheduler.calculate_next_window_start`
over whole epoch seconds (the source takes `int(current_time.timestamp())`,
truncating to seconds): round down to the nearest hop boundary, and move
to the next hop when the current time is already `window_seconds` or more
past that boundary. -/
def calculate_next_window_start (window_seconds hop_seconds : Nat)
    (seconds_since_epoch : Nat) : Nat :=
  let hop_boundary := seconds_since_epoch / hop_seconds * hop_seconds
  if seconds_since_epoch ≥ hop_boundary + window_seconds then
    hop_boundary + hop_seconds
  else
    hop_boundary

/-- Embeds the supervision-relevant fields of
`app/ffmpeg.py::FFmpegConfig` with their defaults. -/
structure FFmpegConfig where
  max_restart_attempts : Nat := 10
  restart_backoff_seconds : Rat := 1
  max_backoff_seconds : Rat := 60
deriving DecidableEq, Repr

/-- Embeds `FFmpegRunner._calculate_backoff`: zero before the first
restart, otherwise `min(base * 2^(restart_count - 1), cap)`. -/
def calculate_backoff (cfg : FFmpegConfig) (restart_count : Nat) : Rat :=
  if restart_count = 0 then 0
  else
    min (cfg.restart_backoff_seconds * 2 ^ (restart_count - 1))
      cfg.max_backoff_seconds

/-- Embeds `RealFFmpegRunner.restart` together with the `start` it then
performs: when the counter has reached `max_restart_attempts` the call
raises; otherwise the counter is incremented and `start` (via
`_wait_for_backoff`) sleeps `_calculate_backoff()` evaluated at the new
counter before relaunching the decoder.  Returns the new counter and the
backoff delay slept. -/
def restart (cfg : FFmpegConfig) (restart_count : Nat) :
    Except String (Nat × Rat) :=
  if restart_count ≥ cfg.max_restart_attempts then
    .error "Max FFmpeg restart attempts reached"
  else
    .ok (restart_count + 1, calculate_backoff cfg (restart_count + 1))

/-- The backoff delays slept by `n` consecutive `restart` calls against a
decoder that exits immediately after every start, beginning at restart
counter `count`; `none` when some call in the sequence raises. -/
def restartDelays (cfg : FFmpegConfig) : Nat → Nat → Option (List Rat)
  | _, 0 => some []
  | count, n + 1 =>
      match restart cfg count with
      | .error _ => none
      | .ok cd => (restartDelays cfg cd.1 n).map (cd.2 :: ·)

/-- The observable behaviour of one provider's task within a single
`recognize_parallel` dispatch: the provider's name, whether its
per-provider gate is saturated when probed, and what `_do_recognize`
returns once the gates are acquired (`none` when the recognizer raised,
since `_do_recognize` catches the exception and returns `None`). -/
structure ProviderDispatch where
  provider_name : String
  gate_saturated : Bool
  do_recognize_outcome : Option RecognitionResult
deriving DecidableEq, Repr

/-- Embeds `ParallelRecognizers._recognize_with_limits`: probe the
per-provider gate first and skip (return `None`) when it is saturated;
otherwise acquire the global gate, then the provider gate, and run
`_do_recognize`. -/
def recognize_with_limits (p : ProviderDispatch) :
    Option RecognitionResult :=
  if p.gate_saturated then none else p.do_recognize_outcome

/-- Embeds `ParallelRecognizers.recognize_parallel`: gather every
provider's task and keep exactly the values that are actual
`RecognitionResult`s — skips and swallowed failures contribute
nothing. -/
def recognize_parallel (providers : List ProviderDispatch) :
    List RecognitionResult :=
  (providers.map recognize_with_limits).filterMap id

/-- The default supervision configuration (budget 10, base 1 s,
cap 60 s). -/
def defaultFFmpegConfig : FFmpegConfig := {}

/-- A row of the `tracks` table (`UNIQUE(provider, provider_track_id)`);
`metadata` is the opaque JSON string stored by `upsert_track`. -/
structure TrackRow where
  id : Nat
  provider : String
  provider_track_id : String
  title : String
  artist : String
  album : Option String
  isrc : Option String
  artwork_url : Option String
  metadata : Option String
  created_at : Int
  updated_at : Int
deriving DecidableEq, Repr

/-- A row of the `streams` table. -/
structure StreamRow where
  id : Nat
  name : String
  url : String
  enabled : Bool
deriving DecidableEq, Repr

/-- A row of the `plays` table
(`UNIQUE(track_id, stream_id, dedup_bucket)`). -/
structure PlayRow where
  id : Nat
  track_id : Nat
  stream_id : Nat
  recognized_at_utc : Int
  dedup_bucket : Int
  confidence : Option Rat
deriving DecidableEq, Repr

/-- A row of the `recognitions` table (append-only diagnostics). -/
structure RecognitionRow where
  id : Nat
  stream_id : Nat
  provider : String
  recognized_at_utc : Int
  window_start_utc : Int
  window_end_utc : Int
  track_id : Option Nat
  confidence : Option Rat
  latency_ms : Option Nat
  raw_response : Option String
  error_message : Option String
deriving DecidableEq, Repr

/-- The SQLite database state the repositories in `app/db/repo.py`
operate on; the `next_*` counters model SQLite rowid assignment
(`cursor.lastrowid`). -/
structure DB where
  tracks : List TrackRow := []
  streams : List StreamRow := []
  plays : List PlayRow := []
  recognitions : List RecognitionRow := []
  next_track_id : Nat := 1
  next_stream_id : Nat := 1
  next_play_id : Nat := 1
  next_recognition_id : Nat := 1
deriving DecidableEq, Repr

/-- The `WHERE provider = ? AND provider_track_id = ?` selection used by
`upsert_track`. -/
def matchesTrackKey (provider provider_track_id : String)
    (tr : TrackRow) : Bool :=
  tr.provider == provider && tr.provider_track_id == provider_track_id

/-- The row transformation of `upsert_track`'s UPDATE statement:
`UPDATE tracks SET title = ?, artist = ?, album = ?, isrc = ?,
artwork_url = ?, metadata = ?, updated_at = CURRENT_TIMESTAMP
WHERE id = ?`. -/
def updateTrackRow (title artist : String)
    (album isrc artwork_url metadata : Option String) (now : Int)
    (track_id : Nat) (tr : TrackRow) : TrackRow :=
  if tr.id = track_id then
    { tr with
      title := title
      artist := artist
      album := album
      isrc := isrc
      artwork_url := artwork_url
      metadata := metadata
      updated_at := now }
  else tr

/-- The row built by `upsert_track`'s INSERT statement, with rowid
`track_id` and both timestamp columns set to the insertion time. -/
def newTrackRow (provider provider_track_id title artist : String)
    (album isrc artwork_url metadata : Option String) (now : Int)
    (track_id : Nat) : TrackRow :=
  { id := track_id
    provider := provider
    provider_track_id := provider_track_id
    title := title
    artist := artist
    album := album
    isrc := isrc
    artwork_url := artwork_url
    metadata := metadata
    created_at := now
    updated_at := now }

/-- Embeds `TrackRepository.upsert_track`: select by
`(provider, provider_track_id)`; when a row exists, update its attribute
columns and `updated_at = CURRENT_TIMESTAMP` (the `now` argument) and
return its id; otherwise insert a new row and return its fresh rowid.
The caller passes `metadata` already serialized (the source applies
`json.dumps` to a dict). -/
def upsert_track (db : DB) (now : Int)
    (provider provider_track_id title artist : String)
    (album isrc artwork_url metadata : Option String) : Nat × DB :=
  match db.tracks.find? (matchesTrackKey provider provider_track_id) with
  | some existing =>
      (existing.id,
       { db with tracks := db.tracks.map (updateTrackRow title artist album isrc artwork_url metadata now existing.id) })
  | none =>
      (db.next_track_id,
       { db with
         tracks := db.tracks ++ [newTrackRow provider provider_track_id title artist album isrc artwork_url metadata now db.next_track_id]
         next_track_id := db.next_track_id + 1 })

/-- Embeds `RecognitionRepository._get_stream_id`: look the stream up by
name, or create it with a placeholder URL. -/
def get_stream_id (db : DB) (stream_name : String) : Nat × DB :=
  match db.streams.find? (fun s => s.name == stream_name) with
  | some row => (row.id, db)
  | none =>
      (db.next_stream_id,
       { db with
         streams := db.streams ++
           [{ id := db.next_stream_id
              name := stream_name
              url := "rtsp://placeholder/" ++ stream_name
              enabled := true }]
         next_stream_id := db.next_stream_id + 1 })

/-- Embeds `PlayRepository.insert_play`: the
`UNIQUE(track_id, stream_id, dedup_bucket)` constraint makes the insert
of a duplicate triple raise (aiosqlite surfaces an IntegrityError, which
the repository does not catch). -/
def insert_play (db : DB) (track_id stream_id : Nat)
    (recognized_at_utc : Int) (dedup_bucket : Int)
    (confidence : Option Rat) : Except String (Nat × DB) :=
  if db.plays.any fun p =>
      p.track_id == track_id && p.stream_id == stream_id &&
        p.dedup_bucket == dedup_bucket then
    .error
      "UNIQUE constraint failed: plays.track_id, plays.stream_id, plays.dedup_bucket"
  else
    .ok (db.next_play_id,
      { db with
        plays := db.plays ++
          [{ id := db.next_play_id
             track_id := track_id
             stream_id := stream_id
             recognized_at_utc := recognized_at_utc
             dedup_bucket := dedup_bucket
             confidence := confidence }]
        next_play_id := db.next_play_id + 1 })

/-- Embeds `RecognitionRepository.insert_recognition_by_name`: resolve
(or create) the stream, then insert a diagnostics row whose window
bounds are both set to `recognized_at_utc`, whose `track_id` and
`latency_ms` are `NULL`, and whose `error_message` is hardcoded `NULL`;
the `provider_track_id`, `title`, `artist`, `album`, `isrc` and
`artwork_url` arguments are accepted but not stored. -/
def insert_recognition_by_name (db : DB)
    (stream_name provider provider_track_id title artist : String)
    (album isrc artwork_url : Option String) (confidence : Option Rat)
    (recognized_at_utc : Int) (raw_response : Option String) : Nat × DB :=
  let sid := get_stream_id db stream_name
  let row : RecognitionRow :=
    { id := sid.2.next_recognition_id
      stream_id := sid.1
      provider := provider
      recognized_at_utc := recognized_at_utc
      window_start_utc := recognized_at_utc
      window_end_utc := recognized_at_utc
      track_id := none
      confidence := confidence
      latency_ms := none
      raw_response := raw_response
      error_message := none }
  (row.id,
   { sid.2 with
     recognitions := sid.2.recognitions ++ [row]
     next_recognition_id := sid.2.next_recognition_id + 1 })

/-- Embeds `StreamWorker._process_window` from the point where the
parallel recognition results are in hand: log every result to
diagnostics via `insert_recognition_by_name` (passing exactly the fields
the worker passes), run the two-hit confirmation loop, and for every
confirmed play upsert the track (with `metadata = raw_response`), resolve
the stream id, compute
`dedup_bucket = int(recognized_at_utc.timestamp()) // dedup_seconds` and
attempt `insert_play`.  There is no exception handling around
`insert_play`: a duplicate-play failure aborts `_process_window` and
propagates (the worker's `_run` loop logs the error and re-raises). -/
def process_window (tolerance_hops hop_seconds dedup_seconds : Nat)
    (stream_name : String) (now : Int) (pending_hits : PendingHits)
    (db : DB) (recognition_results : List RecognitionResult) :
    Except String (PendingHits × DB) :=
  let db := recognition_results.foldl
    (fun d r =>
      (insert_recognition_by_name d stream_name r.provider
        r.provider_track_id r.title r.artist r.album r.isrc r.artwork_url
        r.confidence r.recognized_at_utc r.raw_response).2)
    db
  let step := process_results tolerance_hops hop_seconds pending_hits
    stream_name recognition_results
  let inserted := step.1.foldlM
    (fun (d : DB) r => do
      let up := upsert_track d now r.provider r.provider_track_id r.title
        r.artist r.album r.isrc r.artwork_url r.raw_response
      let sid := get_stream_id up.2 stream_name
      let dedup_bucket :=
        (r.recognized_at_utc.tdiv 1000000).fdiv (dedup_seconds : Int)
      let ins ← insert_play sid.2 up.1 sid.1 r.recognized_at_utc
        dedup_bucket r.confidence
      pure ins.2)
    db
  inserted.map fun d => (step.2, d)

/-- The identity and attribute columns of a track row — everything
except the `updated_at` bookkeeping timestamp. -/
def TrackRow.attrs (tr : TrackRow) :
    Nat × String × String × String × String × Option String ×
      Option String × Option String × Option String × Int :=
  (tr.id, tr.provider, tr.provider_track_id, tr.title, tr.artist,
   tr.album, tr.isrc, tr.artwork_url, tr.metadata, tr.created_at)

/-- An errored recognition attempt as produced by the AcoustID
recognizer on a provider-side HTTP 500. -/
def http500Result : RecognitionResult :=
  { provider := "acoustid"
    provider_track_id := ""
    title := ""
    artist := ""
    recognized_at_utc := 1704110400000000
    error_message := some "AcoustID API error: 500" }

/-- A database in which stream `S` (id 1) and track `T1` by provider `P`
(id 1) exist, and a play of that track on that stream has already been
inserted in the dedup bucket of 12:02:00Z (`dedup_seconds = 300`,
bucket `1704110520 / 300 = 5680368`). -/
def dbWithExistingPlay : DB :=
  { tracks :=
      [{ id := 1
         provider := "P"
         provider_track_id := "T1"
         title := "Song"
         artist := "Artist"
         album := none
         isrc := none
         artwork_url := none
         metadata := none
         created_at := 1704110400000000
         updated_at := 1704110400000000 }]
    streams :=
      [{ id := 1
         name := "S"
         url := "rtsp://placeholder/S"
         enabled := true }]
    plays :=
      [{ id := 1
         track_id := 1
         stream_id := 1
         recognized_at_utc := 1704110460000000
         dedup_bucket := 5680368
         confidence := some 1 }]
    next_track_id := 2
    next_stream_id := 2
    next_play_id := 2 }

/-- C10: a `RecognitionResult` with `error_message = None` and an empty
`provider_track_id` satisfies both `is_success` and `is_no_match`: the
`is_success` predicate only compares `provider_track_id` against `None`
(vacuous for a `str` field), so the two classifications overlap. -/
theorem C10_success_and_no_match_overlap (r : RecognitionResult)
    (herr : r.error_message = none) (hid : r.provider_track_id = "") :
    r.is_success = true ∧ r.is_no_match = true := by
  refine ⟨by simp [RecognitionResult.is_success, herr], ?_⟩
  simp only [RecognitionResult.is_no_match, herr, hid]
  decide

/-- Witness for C10 at the concrete no-match result. -/
theorem C10_success_and_no_match_overlap_witness :
    noMatchResult.is_success = true ∧ noMatchResult.is_no_match = true :=
  C10_success_and_no_match_overlap noMatchResult rfl rfl

/-- C1: the claim says both no-match and error results leave the pending
two-hit state unchanged.  An error result does (first conjunct), but a
no-match result passes `is_success` (its `provider_track_id`, a Python
`str`, is never `None`) and inserts a pending entry under the key
`"shazam:"`, changing the state (remaining conjuncts): the claim fails
on the code for no-match results. -/
theorem C1_no_match_mutates_pending_state :
    process_recognition 1 120 [] "S" errorResult = (none, []) ∧
    noMatchResult.is_no_match = true ∧
    process_recognition 1 120 [] "S" noMatchResult =
      (none, [("S", [("shazam:",
        { track_id := ""
          provider := "shazam"
          first_hit_time := 1704110400000000
          confidence := 0 })])]) := by
  decide

/-- C7: with a pending entry for the key of a successful result `r` in
stream `s`, a second hit exactly `tolerance_hops * hop_seconds` after the
first confirms (entry removed, `r` emitted), while a second hit any later
(at microsecond granularity, at least one microsecond later) does not
confirm and replaces the entry with one whose `first_hit_time` is `r`'s
timestamp. -/
theorem C7_tolerance_boundary (tol hop : Nat) (st : TwoHitState)
    (r : RecognitionResult) (s : String) (hsucc : r.is_success = true) :
    ((r.recognized_at_utc - st.first_hit_time =
        ((tol * hop * 1000000 : Nat) : Int)) →
      process_recognition tol hop
          [(s, [(r.provider ++ ":" ++ r.provider_track_id, st)])] s r =
        (some r, [(s, [])])) ∧
    ((((tol * hop * 1000000 : Nat) : Int) <
        r.recognized_at_utc - st.first_hit_time) →
      process_recognition tol hop
          [(s, [(r.provider ++ ":" ++ r.provider_track_id, st)])] s r =
        (none, [(s, [(r.provider ++ ":" ++ r.provider_track_id,
          { track_id := r.provider_track_id
            provider := r.provider
            first_hit_time := r.recognized_at_utc
            confidence := r.confidence.getD 0 })])])) := by
  constructor
  · intro h
    have htol : st.is_within_tolerance r.recognized_at_utc tol hop = true := by
      simp [TwoHitState.is_within_tolerance, h]
    simp [process_recognition, hsucc, dictGet, dictSet, dictDel, htol]
  · intro h
    have htol : st.is_within_tolerance r.recognized_at_utc tol hop = false := by
      simp only [TwoHitState.is_within_tolerance, decide_eq_false_iff_not,
        not_le]
      exact h
    simp [process_recognition, hsucc, dictGet, dictSet, dictDel, htol]

/-- Witness for C7: tolerance one hop of 120 s; the boundary hit
confirms, the hit one microsecond later replaces the pending entry. -/
theorem C7_tolerance_boundary_witness :
    process_recognition 1 120 [("S", [("P:T1", firstHitState)])] "S"
        secondHitAtBoundary =
      (some secondHitAtBoundary, [("S", [])]) ∧
    process_recognition 1 120 [("S", [("P:T1", firstHitState)])] "S"
        secondHitLate =
      (none, [("S", [("P:T1",
        { track_id := "T1"
          provider := "P"
          first_hit_time := 1704110400000000 + 120000001
          confidence := 0 })])]) :=
  ⟨(C7_tolerance_boundary 1 120 firstHitState secondHitAtBoundary "S"
      rfl).1 (by decide),
   (C7_tolerance_boundary 1 120 firstHitState secondHitLate "S"
      rfl).2 (by decide)⟩

/-- C6: the claim says that after any update processed by the aggregator
in the core pipeline, no pending entry older than
`(tolerance_hops + 1) * hop_seconds` remains.  Feeding the worker's
confirmation loop a first hit at 12:00:00Z and then, one hour later, a
hit of a different track leaves the one-hour-old entry (far beyond the
240 s bound for tolerance 1, hop 120 s) in the pending map: nothing in
the pipeline calls `cleanup_expired_hits`, which would have purged it
(final conjunct). -/
theorem C6_stale_pending_entry_survives_update :
    (process_results 1 120
        (process_results 1 120 [] "S" [secondHitAtBoundary]).2 "S"
        [otherTrackMuchLater]).2 =
      [("S", [("P:T1",
        { track_id := "T1"
          provider := "P"
          first_hit_time := 1704110400000000 + 120000000
          confidence := 0 }),
       ("P:T2",
        { track_id := "T2"
          provider := "P"
          first_hit_time := 1704110400000000 + 3600000000
          confidence := 0 })])] ∧
    cleanup_expired_hits 1 120
        (process_results 1 120
          (process_results 1 120 [] "S" [secondHitAtBoundary]).2 "S"
          [otherTrackMuchLater]).2
        (1704110400000000 + 3600000000) =
      [("S", [("P:T2",
        { track_id := "T2"
          provider := "P"
          first_hit_time := 1704110400000000 + 3600000000
          confidence := 0 })])] := by
  decide

/-- C5 counterexample: at 12:00:05Z (five seconds past a hop boundary,
still within the 12-second window) the scheduler starts the first window
at the hop boundary already in the past — not at the smallest hop-aligned
instant at or after the current time, as the claim states. -/
theorem C5_counterexample_first_window_in_past :
    calculate_next_window_start 12 120 1704110405 = 1704110400 ∧
    ¬ 1704110405 ≤ calculate_next_window_start 12 120 1704110405 := by
  decide

/-- C5 amended: the first window starts at the hop boundary at or before
the current time when fewer than `window_seconds` have elapsed since that
boundary (so the start may lie in the past), and at the next hop boundary
otherwise; the result is always hop-aligned, and in particular starting
at 12:00:37Z with `hop_seconds = 120` and `window_seconds = 12` gives
12:02:00Z, not 12:00:37Z. -/
theorem C5_first_window_alignment (window hop t : Nat) (hhop : 0 < hop) :
    calculate_next_window_start window hop t % hop = 0 ∧
    (t % hop < window →
      calculate_next_window_start window hop t = t - t % hop) ∧
    (window ≤ t % hop →
      calculate_next_window_start window hop t = t - t % hop + hop) ∧
    calculate_next_window_start 12 120 1704110437 = 1704110520 := by
  have h1 : t / hop * hop + t % hop = t := Nat.div_add_mod' t hop
  have h2 : t % hop < hop := Nat.mod_lt t hhop
  refine ⟨?_, ?_, ?_, by decide⟩
  · simp only [calculate_next_window_start]
    split
    · rw [Nat.add_mod_right]
      exact Nat.mul_mod_left _ _
    · exact Nat.mul_mod_left _ _
  · intro hlt
    simp only [calculate_next_window_start]
    generalize hA : t / hop * hop = A at h1 ⊢
    generalize hB : t % hop = B at h1 hlt ⊢
    split <;> omega
  · intro hge
    simp only [calculate_next_window_start]
    generalize hA : t / hop * hop = A at h1 ⊢
    generalize hB : t % hop = B at h1 hge ⊢
    split <;> omega

/-- Witness for C5 at 12:00:37Z: the start is hop-aligned and, since
37 s ≥ 12 s have elapsed past the boundary, it is the next boundary. -/
theorem C5_first_window_alignment_witness :
    calculate_next_window_start 12 120 1704110437 % 120 = 0 ∧
    calculate_next_window_start 12 120 1704110437 =
      1704110437 - 1704110437 % 120 + 120 :=
  ⟨(C5_first_window_alignment 12 120 1704110437 (by decide)).1,
   (C5_first_window_alignment 12 120 1704110437 (by decide)).2.2.1
     (by decide)⟩

/-- C3 counterexample: the 10th consecutive restart attempt does not
fail: with the default budget of 10, `restart` at counter 9 succeeds
(new counter 10, backoff capped at 60 s), and the first ten restart
calls all succeed, sleeping 1,2,4,8,16,32,60,60,60,60 seconds — ten
backoffs, not nine. -/
theorem C3_counterexample_tenth_restart_succeeds :
    restart defaultFFmpegConfig 9 = .ok (10, 60) ∧
    restartDelays defaultFFmpegConfig 0 10 =
      some [1, 2, 4, 8, 16, 32, 60, 60, 60, 60] := by
  constructor
  · norm_num [restart, defaultFFmpegConfig, calculate_backoff]
  · norm_num [restartDelays, restart, defaultFFmpegConfig,
      calculate_backoff]

/-- C3 amended: against a decoder that exits immediately on every start,
the n-th restart waits `min(1 * 2^(n-1), 60)` seconds (first start
undelayed), so the runner performs 10 backoffs of
1,2,4,8,16,32,60,60,60,60 seconds, and the 11th consecutive restart
attempt raises, the budget of 10 restarts being exhausted. -/
theorem C3_backoff_and_budget :
    restartDelays defaultFFmpegConfig 0 10 =
      some ((List.range 10).map fun k => min ((2 : Rat) ^ k) 60) ∧
    restartDelays defaultFFmpegConfig 0 11 = none := by
  constructor
  · norm_num [restartDelays, restart, defaultFFmpegConfig,
      calculate_backoff, List.range_succ]
  · norm_num [restartDelays, restart, defaultFFmpegConfig,
      calculate_backoff]

/-- C8: in every dispatch, a provider whose per-provider gate is
saturated at probe time contributes no `RecognitionResult` to the
returned list (a skip, not an error), and the list is exactly the
results of the non-saturated providers whose `_do_recognize` produced a
result — the other providers' results are all still returned. -/
theorem C8_saturated_providers_skipped (providers : List ProviderDispatch) :
    recognize_parallel providers =
      (providers.filter fun p => !p.gate_saturated).filterMap
        (fun p => p.do_recognize_outcome) := by
  induction providers with
  | nil => rfl
  | cons p rest ih =>
      cases hs : p.gate_saturated <;>
        simp_all [recognize_parallel, recognize_with_limits,
          List.filter_cons, List.filterMap_cons]

/-- Auxiliary: the UPDATE of `upsert_track` does not touch the
`(provider, provider_track_id)` key, so the selection predicate is
preserved. -/
theorem matchesTrackKey_updateTrackRow
    (provider provider_track_id title artist : String)
    (album isrc artwork_url metadata : Option String) (now : Int)
    (tid : Nat) (tr : TrackRow) :
    matchesTrackKey provider provider_track_id
      (updateTrackRow title artist album isrc artwork_url metadata now
        tid tr) =
      matchesTrackKey provider provider_track_id tr := by
  by_cases h : tr.id = tid <;> simp [matchesTrackKey, updateTrackRow, h]

/-- Auxiliary: the UPDATE of `upsert_track` never changes a row's id. -/
theorem updateTrackRow_id (title artist : String)
    (album isrc artwork_url metadata : Option String) (now : Int)
    (tid : Nat) (tr : TrackRow) :
    (updateTrackRow title artist album isrc artwork_url metadata now tid
      tr).id = tr.id := by
  by_cases h : tr.id = tid <;> simp [updateTrackRow, h]

/-- Auxiliary: applying `upsert_track`'s UPDATE twice with the same
attribute values changes no identity or attribute column over applying
it once (only `updated_at`, which `TrackRow.attrs` omits, differs). -/
theorem attrs_updateTrackRow_twice (title artist : String)
    (album isrc artwork_url metadata : Option String) (now1 now2 : Int)
    (tid : Nat) (tr : TrackRow) :
    TrackRow.attrs (updateTrackRow title artist album isrc artwork_url
        metadata now2 tid
        (updateTrackRow title artist album isrc artwork_url metadata now1
          tid tr)) =
      TrackRow.attrs (updateTrackRow title artist album isrc artwork_url
        metadata now1 tid tr) := by
  by_cases h : tr.id = tid <;>
    simp [updateTrackRow, TrackRow.attrs, h]

/-- C9: upserting the same `(provider, provider_track_id)` twice with
unchanged attributes is idempotent in any database whose rowids are
consistent (every track id below the next fresh id): the second call
returns the same track id as the first, and every row's identity and
attribute columns (id, provider, provider_track_id, title, artist,
album, isrc, artwork_url, metadata, created_at) are unchanged — no
attribute drift.  Only the `updated_at` bookkeeping column, which the
UPDATE always refreshes, is outside the comparison. -/
theorem C9_upsert_track_idempotent (db : DB) (now1 now2 : Int)
    (provider provider_track_id title artist : String)
    (album isrc artwork_url metadata : Option String)
    (hwf : ∀ tr ∈ db.tracks, tr.id < db.next_track_id) :
    (upsert_track (upsert_track db now1 provider provider_track_id title
        artist album isrc artwork_url metadata).2 now2 provider
        provider_track_id title artist album isrc artwork_url metadata).1 =
      (upsert_track db now1 provider provider_track_id title artist album
        isrc artwork_url metadata).1 ∧
    (upsert_track (upsert_track db now1 provider provider_track_id title
        artist album isrc artwork_url metadata).2 now2 provider
        provider_track_id title artist album isrc artwork_url
        metadata).2.tracks.map TrackRow.attrs =
      (upsert_track db now1 provider provider_track_id title artist album
        isrc artwork_url metadata).2.tracks.map TrackRow.attrs := by
  cases hfind : db.tracks.find? (matchesTrackKey provider
      provider_track_id) with
  | some existing =>
      have hcomp : matchesTrackKey provider provider_track_id ∘
          updateTrackRow title artist album isrc artwork_url metadata now1
            existing.id = matchesTrackKey provider provider_track_id :=
        funext fun tr => matchesTrackKey_updateTrackRow provider
          provider_track_id title artist album isrc artwork_url metadata
          now1 existing.id tr
      have h2 : (db.tracks.map (updateTrackRow title artist album isrc
          artwork_url metadata now1 existing.id)).find?
            (matchesTrackKey provider provider_track_id) =
          some (updateTrackRow title artist album isrc artwork_url
            metadata now1 existing.id existing) := by
        rw [List.find?_map, hcomp, hfind, Option.map_some']
      constructor
      · simp only [upsert_track, hfind, h2]
        exact updateTrackRow_id title artist album isrc artwork_url
          metadata now1 existing.id existing
      · simp only [upsert_track, hfind, h2]
        simp only [updateTrackRow_id, List.map_map]
        apply List.map_congr_left
        intro a ha
        simp only [Function.comp_apply]
        exact attrs_updateTrackRow_twice title artist album isrc
          artwork_url metadata now1 now2 existing.id a
  | none =>
      have h2 : (db.tracks ++ [newTrackRow provider provider_track_id
          title artist album isrc artwork_url metadata now1
          db.next_track_id]).find?
            (matchesTrackKey provider provider_track_id) =
          some (newTrackRow provider provider_track_id title artist album
            isrc artwork_url metadata now1 db.next_track_id) := by
        rw [List.find?_append, hfind]
        simp [matchesTrackKey, newTrackRow]
      constructor
      · simp only [upsert_track, hfind, h2]
        simp [newTrackRow]
      · simp only [upsert_track, hfind, h2]
        simp only [List.map_append, List.map_map]
        congr 1
        · exact List.map_congr_left fun a ha => by
            have hne : a.id ≠ db.next_track_id := Nat.ne_of_lt (hwf a ha)
            simp [Function.comp, updateTrackRow, newTrackRow, hne]
        · simp [updateTrackRow, newTrackRow, TrackRow.attrs]

/-- Witness for C9: two upserts of track `T1` by provider `P` into an
empty database. -/
theorem C9_upsert_track_idempotent_witness :
    (upsert_track (upsert_track {} 0 "P" "T1" "Song" "Artist" none none
        none none).2 1 "P" "T1" "Song" "Artist" none none none none).1 =
      (upsert_track {} 0 "P" "T1" "Song" "Artist" none none none
        none).1 ∧
    (upsert_track (upsert_track {} 0 "P" "T1" "Song" "Artist" none none
        none none).2 1 "P" "T1" "Song" "Artist" none none none
        none).2.tracks.map TrackRow.attrs =
      (upsert_track {} 0 "P" "T1" "Song" "Artist" none none none
        none).2.tracks.map TrackRow.attrs :=
  C9_upsert_track_idempotent {} 0 1 "P" "T1" "Song" "Artist" none none
    none none (by intro tr h; simp at h)

/-- C4: the claim says the diagnostics row written for an errored
attempt records its error message.  The worker logs every result through
`insert_recognition_by_name`, which does not even accept an error
message and hardcodes the `error_message` column to `NULL`: the row
written for an HTTP-500 result records no error message. -/
theorem C4_diagnostics_row_drops_error_message :
    http500Result.error_message = some "AcoustID API error: 500" ∧
    ((insert_recognition_by_name {} "S" http500Result.provider
        http500Result.provider_track_id http500Result.title
        http500Result.artist http500Result.album http500Result.isrc
        http500Result.artwork_url http500Result.confidence
        http500Result.recognized_at_utc
        http500Result.raw_response).2.recognitions.map
      fun row => row.error_message) = [none] :=
  ⟨rfl, rfl⟩

/-- C2: the claim says a duplicate-play insert is caught and silently
dropped by the stream worker, with `_process_window` completing
normally.  With the pending first hit of `(P, T1)` and a database that
already holds a play of that track on stream `S` in the same dedup
bucket, processing the window that carries the confirming second hit
makes `insert_play` fail on the UNIQUE constraint, and
`_process_window` — which has no handler around the insert — aborts
with the error instead of completing normally. -/
theorem C2_duplicate_play_error_propagates :
    process_window 1 120 300 "S" (1704110400000000 + 120000000)
      [("S", [("P:T1", firstHitState)])] dbWithExistingPlay
      [secondHitAtBoundary] =
    .error
      "UNIQUE constraint failed: plays.track_id, plays.stream_id, plays.dedup_bucket" :=
  rfl
